import Mathlib

/-!
Verification development for the didc-pdf-parser repository.

The repository turns medical lab-report PDFs into structured JSON records.
Its own logic consists of:
* `models.py` — two pydantic schema families (`ExplicitIKCReport`,
  `ExplicitAKHReport`) built out of nested section models whose leaves are
  `Analyte` records of string fields;
* `llm.py` — `extract_structured`, which selects one of the two schemas by a
  string tag and hands it, together with the document text, to an external
  LLM agent that returns a schema-validated record;
* `main.py` — a CLI command `parse` with filename-based report-type
  auto-detection (`detect_analysis_type`), PDF discovery (`find_pdf_files`),
  a per-file processing boundary (`process_single_pdf`) and a batch loop.

The external collaborators (docling PDF conversion, the pydantic-ai agent,
the HTTP stack) are modelled as oracle parameters.  Pydantic validation is
modelled by a small strict JSON validator: every pydantic class becomes a
list of field specifications (name, field validator, optional default), and
`pModel` validates a JSON object against such a list exactly the way
pydantic v2 validates a parsed JSON dict against a model class: required
fields must be present, missing fields with defaults receive the default
unvalidated (pydantic's `validate_default=False` default), extra keys are
ignored, and the canonical output lists the declared fields in declaration
order — which is precisely the shape `model_dump_json` emits.  Lax-mode
scalar coercions (e.g. numeric strings for bools) are not modelled; no
claim depends on them.  All values occurring in these schemas are strings,
booleans, nulls and objects, so the JSON fragment below suffices.
-/

/-- JSON fragment sufficient for the report schemas of `models.py`:
null, booleans, strings and objects (association lists). -/
inductive Json where
  | null : Json
  | bool : Bool → Json
  | str : String → Json
  | obj : List (String × Json) → Json

/-- Lookup of a key in an association list, first match wins.  Models both
the Python dict lookup `schemas[schema]` in `llm.py` and field access in a
parsed JSON object. -/
def getF {α : Type} (k : String) : List (String × α) → Option α
  | [] => none
  | (k', v) :: rest => if k' = k then some v else getF k rest

/-- Validator for a pydantic `str` field: accepts exactly strings. -/
def pStr : Json → Option Json
  | .str s => some (.str s)
  | _ => none

/-- Validator for a pydantic `bool` field: accepts exactly booleans. -/
def pBool : Json → Option Json
  | .bool b => some (.bool b)
  | _ => none

/-- Validator for a pydantic `Optional[T]` field: `null` is accepted,
anything else is validated as a `T`. -/
def pNullable (p : Json → Option Json) : Json → Option Json
  | .null => some .null
  | .bool b => p (.bool b)
  | .str s => p (.str s)
  | .obj kvs => p (.obj kvs)

/-- One declared field of a pydantic model: its name, its validator, and
its default value (`none` means the field is required). -/
structure FieldSpec where
  name : String
  parse : Json → Option Json
  dflt : Option Json

/-- Validate the fields of a JSON object against a list of field
specifications, producing the canonical field list (declaration order,
defaults filled in).  Mirrors pydantic v2 `model_validate` on a dict:
required fields must be present, defaults are inserted unvalidated, extra
keys are ignored. -/
def pFields : List FieldSpec → List (String × Json) → Option (List (String × Json))
  | [], _ => some []
  | f :: fs, kvs =>
    (match getF f.name kvs with
      | some v => f.parse v
      | none => f.dflt).bind fun pv =>
    (pFields fs kvs).map fun out => (f.name, pv) :: out

/-- Validate a JSON value against a pydantic model class (as a field-spec
list).  The result, when validation succeeds, is the canonical record —
the JSON that `model_dump_json` would emit for the validated instance. -/
def pModel (fs : List FieldSpec) : Json → Option Json
  | .obj kvs =>
    match pFields fs kvs with
    | some out => some (.obj out)
    | none => none
  | _ => none

/-! ### Schema transcriptions from `models.py`

Each pydantic class becomes one field-spec list with the same name, fields
in declaration order.  `Field(..., description=...)` means required;
`= None` / `= False` / a string literal means a default.  The `description`
texts are prompt metadata with no validation semantics and are omitted. -/

/-- Class `Analyte` of `models.py`: caption, result, unit, reference are
required strings; comments is `Optional[str] = None`; out_of_range is
`Optional[bool] = False`. -/
def Analyte : List FieldSpec := [
  ⟨"caption", pStr, none⟩,
  ⟨"result", pStr, none⟩,
  ⟨"unit", pStr, none⟩,
  ⟨"reference", pStr, none⟩,
  ⟨"comments", pNullable pStr, some .null⟩,
  ⟨"out_of_range", pNullable pBool, some (.bool false)⟩]

/-- Class `ElectrolyteAndWaterBalance` of `models.py`. -/
def ElectrolyteAndWaterBalance : List FieldSpec := [
  ⟨"caption", pStr, some (.str "Elektrolyt- und Wasserhaushalt")⟩,
  ⟨"sodium", pModel Analyte, none⟩,
  ⟨"potassium", pModel Analyte, none⟩,
  ⟨"total_calcium", pModel Analyte, none⟩,
  ⟨"albumin_corrected_calcium", pModel Analyte, none⟩,
  ⟨"phosphate", pModel Analyte, none⟩]

/-- Class `Kidney` of `models.py`. -/
def Kidney : List FieldSpec := [
  ⟨"caption", pStr, some (.str "Niere")⟩,
  ⟨"urea", pModel Analyte, none⟩,
  ⟨"creatinine", pModel Analyte, none⟩,
  ⟨"egfr_crea_ckd_epi_2009", pModel Analyte, none⟩,
  ⟨"uric_acid", pModel Analyte, none⟩]

/-- Class `AminoAcidBilirubinAndHemeMetabolism` of `models.py`. -/
def AminoAcidBilirubinAndHemeMetabolism : List FieldSpec := [
  ⟨"caption", pStr, some (.str "Aminosäure-,Bili.-und Hämstoffwechsel")⟩,
  ⟨"bilirubin_total", pModel Analyte, none⟩]

/-- Class `Proteins` of `models.py`. -/
def Proteins : List FieldSpec := [
  ⟨"caption", pStr, some (.str "Proteine")⟩,
  ⟨"protein", pModel Analyte, none⟩,
  ⟨"albumin", pModel Analyte, none⟩]

/-- Class `Enzymes` of `models.py`. -/
def Enzymes : List FieldSpec := [
  ⟨"caption", pStr, some (.str "Enzyme")⟩,
  ⟨"ast_got", pModel Analyte, none⟩,
  ⟨"ggt", pModel Analyte, none⟩,
  ⟨"alkaline_phosphatase", pModel Analyte, none⟩]

/-- Class `Inflammation` of `models.py`. -/
def Inflammation : List FieldSpec := [
  ⟨"caption", pStr, some (.str "Entzündung")⟩,
  ⟨"crp", pModel Analyte, none⟩]

/-- Class `HeartAndMuscle` of `models.py`. -/
def HeartAndMuscle : List FieldSpec := [
  ⟨"caption", pStr, some (.str "Herz und Muskel")⟩,
  ⟨"ck_total", pModel Analyte, none⟩,
  ⟨"troponin_t_hs", pModel Analyte, none⟩,
  ⟨"nt_pro_bnp", pModel Analyte, none⟩]

/-- Class `DiabetesAndEnergyMetabolism` of `models.py`. -/
def DiabetesAndEnergyMetabolism : List FieldSpec := [
  ⟨"caption", pStr, some (.str "Diabetes und Energiestoffwechsel")⟩,
  ⟨"glucose_hep_plasma", pModel Analyte, none⟩,
  ⟨"hba1c_ngsp", pModel Analyte, none⟩,
  ⟨"hba1c_ifcc", pModel Analyte, none⟩]

/-- Class `LipidAndArteriosclerosis` of `models.py`. -/
def LipidAndArteriosclerosis : List FieldSpec := [
  ⟨"caption", pStr, some (.str "Lipidstoffwechsel und Arteriosklerose")⟩,
  ⟨"total_cholesterol", pModel Analyte, none⟩,
  ⟨"hdl_cholesterol", pModel Analyte, none⟩,
  ⟨"non_hdl_cholesterol", pModel Analyte, none⟩,
  ⟨"ldl_cholesterol_sampson", pModel Analyte, none⟩,
  ⟨"triglycerides", pModel Analyte, none⟩,
  ⟨"lipoprotein_a", pModel Analyte, none⟩,
  ⟨"apolipoprotein_a1", pModel Analyte, none⟩,
  ⟨"apolipoprotein_b", pModel Analyte, none⟩]

/-- Class `IronMetabolism` of `models.py`. -/
def IronMetabolism : List FieldSpec := [
  ⟨"caption", pStr, some (.str "Eisenstoffwechsel")⟩,
  ⟨"iron", pModel Analyte, none⟩,
  ⟨"ferritin_eclia", pModel Analyte, none⟩,
  ⟨"ferritin_risk_eclia", pModel Analyte, none⟩,
  ⟨"transferrin", pModel Analyte, none⟩]

/-- Class `Vitamins` of `models.py`. -/
def Vitamins : List FieldSpec := [
  ⟨"caption", pStr, some (.str "Vitamine")⟩,
  ⟨"folic_acid", pModel Analyte, none⟩,
  ⟨"vitamin_b12", pModel Analyte, none⟩,
  ⟨"hydroxyvitamin_d", pModel Analyte, none⟩]

/-- Class `ThyroidFunction` of `models.py`. -/
def ThyroidFunction : List FieldSpec := [
  ⟨"caption", pStr, some (.str "Schilddrüsenfunktion")⟩,
  ⟨"tsh_basal_ft4", pModel Analyte, none⟩,
  ⟨"ft3_free", pModel Analyte, none⟩,
  ⟨"ft4_free", pModel Analyte, none⟩]

/-- Class `SexualHormones` of `models.py`: testosterone and estradiol are
required; lh, fsh, progesterone are `Optional[Analyte] = Field(None, ...)`. -/
def SexualHormones : List FieldSpec := [
  ⟨"caption", pStr, some (.str "Sexualhormone")⟩,
  ⟨"testosterone", pModel Analyte, none⟩,
  ⟨"estradiol", pModel Analyte, none⟩,
  ⟨"lh", pNullable (pModel Analyte), some .null⟩,
  ⟨"fsh", pNullable (pModel Analyte), some .null⟩,
  ⟨"progesterone", pNullable (pModel Analyte), some .null⟩]

/-- Class `IKCLabResult` of `models.py`: the thirteen fixed IKC sections,
all required. -/
def IKCLabResult : List FieldSpec := [
  ⟨"electrolyte_and_water_balance", pModel ElectrolyteAndWaterBalance, none⟩,
  ⟨"kidney", pModel Kidney, none⟩,
  ⟨"amino_acid_bilirubin_and_heme_metabolism", pModel AminoAcidBilirubinAndHemeMetabolism, none⟩,
  ⟨"proteins", pModel Proteins, none⟩,
  ⟨"enzymes", pModel Enzymes, none⟩,
  ⟨"inflammation", pModel Inflammation, none⟩,
  ⟨"heart_and_muscle", pModel HeartAndMuscle, none⟩,
  ⟨"diabetes_and_energy_metabolism", pModel DiabetesAndEnergyMetabolism, none⟩,
  ⟨"lipid_and_arteriosclerosis", pModel LipidAndArteriosclerosis, none⟩,
  ⟨"iron_metabolism", pModel IronMetabolism, none⟩,
  ⟨"vitamins", pModel Vitamins, none⟩,
  ⟨"thyroid_function", pModel ThyroidFunction, none⟩,
  ⟨"sexual_hormones", pModel SexualHormones, none⟩]

/-- Class `ExplicitIKCReport` of `models.py`.  Note: `gender` and
`birth_year` have default `None`; `daily_id`, `date` and `time` are
annotated `Optional[str]` with no default, which in pydantic makes them
required (nullable) fields. -/
def ExplicitIKCReport : List FieldSpec := [
  ⟨"report_id", pStr, none⟩,
  ⟨"project", pStr, none⟩,
  ⟨"patient_id", pStr, none⟩,
  ⟨"gender", pNullable pStr, some .null⟩,
  ⟨"birth_year", pNullable pStr, some .null⟩,
  ⟨"daily_id", pNullable pStr, none⟩,
  ⟨"date", pNullable pStr, none⟩,
  ⟨"time", pNullable pStr, none⟩,
  ⟨"lab_result", pModel IKCLabResult, none⟩]

/-- Class `BloodStatus` of `models.py`. -/
def BloodStatus : List FieldSpec := [
  ⟨"caption", pStr, some (.str "Blutstatus")⟩,
  ⟨"hemoglobin", pModel Analyte, none⟩,
  ⟨"hematocrit", pModel Analyte, none⟩,
  ⟨"erythrocytes", pModel Analyte, none⟩,
  ⟨"mcv", pModel Analyte, none⟩,
  ⟨"mch", pModel Analyte, none⟩,
  ⟨"mchc", pModel Analyte, none⟩,
  ⟨"rdw", pModel Analyte, none⟩,
  ⟨"platelets", pModel Analyte, none⟩,
  ⟨"leukocytes", pModel Analyte, none⟩]

/-- Class `BloodCountAbsolute` of `models.py`. -/
def BloodCountAbsolute : List FieldSpec := [
  ⟨"caption", pStr, some (.str "Blutbild automatisch absolut")⟩,
  ⟨"neutrophils", pModel Analyte, none⟩,
  ⟨"monocytes", pModel Analyte, none⟩,
  ⟨"eosinophils", pModel Analyte, none⟩,
  ⟨"basophils", pModel Analyte, none⟩,
  ⟨"lymphocytes", pModel Analyte, none⟩,
  ⟨"immature_granulocytes", pModel Analyte, none⟩,
  ⟨"nrbc_abs", pModel Analyte, none⟩]

/-- Class `BloodCountRelative` of `models.py`. -/
def BloodCountRelative : List FieldSpec := [
  ⟨"caption", pStr, some (.str "Blutbild automatisch relativ")⟩,
  ⟨"neutrophils", pModel Analyte, none⟩,
  ⟨"monocytes", pModel Analyte, none⟩,
  ⟨"eosinophils", pModel Analyte, none⟩,
  ⟨"basophils", pModel Analyte, none⟩,
  ⟨"lymphocytes", pModel Analyte, none⟩,
  ⟨"immature_granulocytes", pModel Analyte, none⟩,
  ⟨"nrbc", pModel Analyte, none⟩]

/-- Class `HematologicalExaminations` of `models.py`. -/
def HematologicalExaminations : List FieldSpec := [
  ⟨"caption", pStr, some (.str "Hämatologische Untersuchungen")⟩,
  ⟨"blood_status", pModel BloodStatus, none⟩,
  ⟨"blood_count_absolute", pModel BloodCountAbsolute, none⟩,
  ⟨"blood_count_relative", pModel BloodCountRelative, none⟩]

/-- Class `CoagulationFactors` of `models.py`. -/
def CoagulationFactors : List FieldSpec := [
  ⟨"caption", pStr, some (.str "Gerinnungsfaktoren")⟩,
  ⟨"fibrinogen", pModel Analyte, none⟩]

/-- Class `HemostasisExaminations` of `models.py`. -/
def HemostasisExaminations : List FieldSpec := [
  ⟨"caption", pStr, some (.str "Hämostase Untersuchungen")⟩,
  ⟨"coagulation_factors", pModel CoagulationFactors, none⟩]

/-- Class `AKHLabResult` of `models.py` (no caption field). -/
def AKHLabResult : List FieldSpec := [
  ⟨"hematological_examinations", pModel HematologicalExaminations, none⟩,
  ⟨"hemostasis_examinations", pModel HemostasisExaminations, none⟩]

/-- Class `ExplicitAKHReport` of `models.py`: identical top level to
`ExplicitIKCReport`, with an AKH lab result. -/
def ExplicitAKHReport : List FieldSpec := [
  ⟨"report_id", pStr, none⟩,
  ⟨"project", pStr, none⟩,
  ⟨"patient_id", pStr, none⟩,
  ⟨"gender", pNullable pStr, some .null⟩,
  ⟨"birth_year", pNullable pStr, some .null⟩,
  ⟨"daily_id", pNullable pStr, none⟩,
  ⟨"date", pNullable pStr, none⟩,
  ⟨"time", pNullable pStr, none⟩,
  ⟨"lab_result", pModel AKHLabResult, none⟩]

/-- Names of the required top-level fields of a schema: those declared
without a default. -/
def requiredFields (fs : List FieldSpec) : List String :=
  (fs.filter (fun f => f.dflt.isNone)).map FieldSpec.name

/-- Names of the optional top-level fields of a schema: those declared
with a default. -/
def optionalFields (fs : List FieldSpec) : List String :=
  (fs.filter (fun f => f.dflt.isSome)).map FieldSpec.name

/-! ### Structured extraction dispatcher from `llm.py`

`extract_structured` builds an OpenAI-compatible model from the connection
parameters and runs a pydantic-ai `Agent` with `output_type=schemas[schema]`
on the document text.  The agent (model construction, generation settings,
HTTP traffic, bounded retries) is an external collaborator and is modelled
as an oracle `agent : List FieldSpec → String → Option Json` taking the
selected schema and the text; `none` models the agent exhausting its retry
budget or any other exception out of `run_sync`.  The generation settings
(temperature and friends) are forwarded opaquely to the collaborator and
carry no logic of this repository, so they are not modelled.  The Python
dict lookup `schemas[schema]` raises `KeyError` for a tag outside the dict;
that failure is the `UnknownReportType` condition, `extractionFailed`
stands for the agent raising out of `run_sync`. -/

/-- Failure conditions of `extract_structured` in `llm.py`: the `KeyError`
of the schema dict lookup, and any exception out of the agent run. -/
inductive ExtractError where
  | unknownReportType (tag : String)
  | extractionFailed

/-- The `schemas` dict of `llm.py`: report-type tag to schema class. -/
def schemas : List (String × List FieldSpec) :=
  [("IKC", ExplicitIKCReport), ("AKH", ExplicitAKHReport)]

/-- Schema registry lookup, i.e. Python `schemas[schema]` as a total
function. -/
def lookupSchema (tag : String) : Option (List FieldSpec) :=
  getF tag schemas

/-- Function `extract_structured` of `llm.py`, with the pydantic-ai agent
as an oracle.  A successful agent run returns `result.output`, an instance
validated against the selected schema. -/
def extract_structured (agent : List FieldSpec → String → Option Json)
    (text model_name base_url : String) (schema : String)
    (api_key : Option String) : Except ExtractError Json :=
  match lookupSchema schema with
  | none => .error (.unknownReportType schema)
  | some s =>
    match agent s text with
    | some out => .ok out
    | none => .error .extractionFailed

/-! ### CLI layer from `main.py` -/

/-- Uppercasing of a string character by character, modelling Python
`str.upper()` (they agree on ASCII, which is all the detection substrings
need). -/
def pyUpper (s : String) : String := String.mk (s.toList.map Char.toUpper)

/-- Lowercasing of a string character by character, modelling Python
`str.lower()` on ASCII. -/
def pyLower (s : String) : String := String.mk (s.toList.map Char.toLower)

/-- Substring test: does `needle` occur contiguously in `hay`?  Models the
Python expression `needle in hay` on strings. -/
def containsSub (hay needle : List Char) : Bool :=
  match hay with
  | [] => needle.isEmpty
  | _ :: t => needle.isPrefixOf hay || containsSub t needle

/-- String-level wrapper for `containsSub`. -/
def hasSub (hay needle : String) : Bool := containsSub hay.toList needle.toList

/-- Function `detect_analysis_type` of `main.py`.  The Python function
returns only the tag and emits the warning through the logger; the model
returns the tag together with a flag recording whether the warning branch
was taken. -/
def detect_analysis_type (filename : String) : String × Bool :=
  let filename_upper := pyUpper filename
  if hasSub filename_upper "IKC_" then ("IKC", false)
  else if hasSub filename_upper "AKH_" then ("AKH", false)
  else ("IKC", true)

/-- Extension of a file name as computed by Python `pathlib.Path.suffix`:
the part from the last dot on, empty when there is no dot or the only dot
is the leading character (hidden files have no suffix). -/
def pathSuffix (name : String) : String :=
  let r := name.toList.reverse
  let ext := r.takeWhile (fun c => c ≠ '.')
  match r.drop ext.length with
  | '.' :: pre => if pre.isEmpty then "" else String.mk ('.' :: ext.reverse)
  | _ => ""

/-- File name without its suffix, as computed by Python `pathlib.Path.stem`
for a bare file name. -/
def pathStem (name : String) : String :=
  String.mk (name.toList.take (name.toList.length - (pathSuffix name).toList.length))

/-- Lexicographic order on character lists by code point, the order Python
uses to compare strings. -/
def strLeChars : List Char → List Char → Bool
  | [], _ => true
  | _ :: _, [] => false
  | a :: as, b :: bs =>
    if a = b then strLeChars as bs else decide (a.toNat < b.toNat)

/-- Lexicographic order on strings by code point. -/
def strLe (a b : String) : Bool := strLeChars a.toList b.toList

/-- Insertion of a string into a sorted list, ascending. -/
def insertSorted (s : String) : List String → List String
  | [] => [s]
  | x :: xs => if strLe s x then s :: x :: xs else x :: insertSorted s xs

/-- Ascending sort of a list of strings, modelling Python `sorted` on the
globbed paths. -/
def sortStr (l : List String) : List String := l.foldr insertSorted []

/-- The input path of the CLI, as the command body observes it: a regular
file, a directory with its entry names, or a nonexistent path.  (The
`typer.Argument(exists=True, readable=True)` declaration additionally asks
the CLI framework to pre-validate existence; that check belongs to the
external framework, while `find_pdf_files` below is the repository's own
handling.) -/
inductive PathKind where
  | file (name : String)
  | dir (entries : List String)
  | missing

/-- Function `find_pdf_files` of `main.py`.  A single file is accepted when
its suffix lowercases to ".pdf"; a directory contributes its entries
matching the glob pattern `*.pdf` (case-sensitive), sorted, and must
contain at least one; otherwise the command exits with code 1
(`typer.Exit(1)`), modelled as `Except.error 1`. -/
def find_pdf_files : PathKind → Except Nat (List String)
  | .file n => if pyLower (pathSuffix n) = ".pdf" then .ok [n] else .error 1
  | .dir es =>
    let pdf_files := es.filter (fun n => (".pdf".toList).isSuffixOf n.toList)
    if pdf_files.isEmpty then .error 1 else .ok (sortStr pdf_files)
  | .missing => .error 1

/-- Kind of an output file written by `process_single_pdf`: the optional
raw-text file or the structured JSON file. -/
inductive WriteKind where
  | txt
  | json
deriving DecidableEq

/-- One file-write event of the batch: target name and kind. -/
structure WriteEvent where
  name : String
  kind : WriteKind

/-- Whether a write event produced a structured JSON output file. -/
def isJsonWrite (w : WriteEvent) : Bool :=
  match w.kind with
  | .json => true
  | .txt => false

/-- Number of JSON output files among a list of write events. -/
def countJson (ws : List WriteEvent) : Nat :=
  (ws.filter isJsonWrite).length

/-- Function `process_single_pdf` of `main.py`.  The whole body runs under
`try`/`except Exception`, so every exception from the conversion or the
extraction is converted into the `false` return value plus a log line; the
function returns `true` and has written the JSON output exactly when all
steps succeeded.  The docling converter `parse_document` is the oracle
`parseDoc` (`Except.error` models an exception).  Returns the success flag
and the write events in order; note that a raw-text file already written
survives a later extraction failure. -/
def process_single_pdf (parseDoc : String → Except String String)
    (agent : List FieldSpec → String → Option Json)
    (pdf_path analysis_type model_name base_url : String)
    (api_key : Option String) (save_txt : Bool) : Bool × List WriteEvent :=
  match parseDoc pdf_path with
  | .error _ => (false, [])
  | .ok raw_text =>
    let txt_writes := if save_txt then [⟨pathStem pdf_path ++ ".txt", .txt⟩] else []
    match extract_structured agent raw_text model_name base_url analysis_type api_key with
    | .error _ => (false, txt_writes)
    | .ok _ => (true, txt_writes ++ [⟨pathStem pdf_path ++ ".json", .json⟩])

/-- Report-type tag used for one file: the forced `--analysis-type` option
when given, otherwise the auto-detected tag. -/
def tagFor (analysis_type : Option String) (pdf : String) : String :=
  match analysis_type with
  | some t => t
  | none => (detect_analysis_type pdf).1

/-- The per-file loop of the `parse` command in `main.py` (the single-file
branch and the progress-bar loop count successes and failures
identically).  Returns (successful, failed, write events). -/
def processBatch (parseDoc : String → Except String String)
    (agent : List FieldSpec → String → Option Json)
    (analysis_type : Option String) (model_name base_url : String)
    (api_key : Option String) (save_txt : Bool) :
    List String → Nat × Nat × List WriteEvent
  | [] => (0, 0, [])
  | pdf :: rest =>
    let r := process_single_pdf parseDoc agent pdf
      (tagFor analysis_type pdf) model_name base_url api_key save_txt
    let acc := processBatch parseDoc agent analysis_type model_name base_url
      api_key save_txt rest
    (if r.1 then acc.1 + 1 else acc.1,
     if r.1 then acc.2.1 else acc.2.1 + 1,
     r.2 ++ acc.2.2)

/-- The CLI options of the `parse` command (connection and behaviour
options; `input_path` is passed separately). -/
structure CliOptions where
  analysis_type : Option String
  save_txt : Bool
  model_name : Option String
  base_url : Option String
  api_key : Option String

/-- The environment variables consulted by the `parse` command. -/
structure EnvVars where
  MODEL_NAME : Option String
  BASE_URL : Option String
  API_KEY : Option String

/-- Python `a or b` on an optional string: `a` unless it is falsy
(absent or empty). -/
def pyOr (a b : Option String) : Option String :=
  match a with
  | some s => if s.isEmpty then b else some s
  | none => b

/-- Python falsiness of an optional string: `None` and `""` are falsy. -/
def pyFalsy : Option String → Bool
  | none => true
  | some s => s.isEmpty

/-- The `parse` command of `main.py`: resolve the model name, base URL and
API key from CLI options with environment fallback, exit with code 1 when
model name or base URL is falsy, discover the PDF files (exiting with the
code of `find_pdf_files` on failure) and run the per-file loop.  A normal
return models process exit code 0; `Except.error c` models `typer.Exit(c)`.
Write events happen only inside the batch, so an error result carries
none. -/
def parse (cli : CliOptions) (env : EnvVars) (input : PathKind)
    (parseDoc : String → Except String String)
    (agent : List FieldSpec → String → Option Json) :
    Except Nat (Nat × Nat × List WriteEvent) :=
  let final_model_name := pyOr cli.model_name env.MODEL_NAME
  let final_base_url := pyOr cli.base_url env.BASE_URL
  let final_api_key := pyOr cli.api_key env.API_KEY
  if pyFalsy final_model_name then .error 1
  else if pyFalsy final_base_url then .error 1
  else
    match find_pdf_files input with
    | .error code => .error code
    | .ok pdf_files =>
      .ok (processBatch parseDoc agent cli.analysis_type
        (final_model_name.getD "") (final_base_url.getD "") final_api_key
        cli.save_txt pdf_files)

/-- The `parse` command as reached through the CLI.  The argument
declaration `typer.Argument(..., exists=True, readable=True)` in `main.py`
asks the external CLI framework to validate the input path before the
command body runs: click rejects a nonexistent path as a usage error with
its fixed exit code 2, so the command body — including its own
missing-path branch in `find_pdf_files` — is never entered in that case.
An existing path is handed to the body unchanged.  (The readability
pre-check concerns filesystem permissions, which the path model does not
represent.) -/
def parse_cli (cli : CliOptions) (env : EnvVars) (input : PathKind)
    (parseDoc : String → Except String String)
    (agent : List FieldSpec → String → Option Json) :
    Except Nat (Nat × Nat × List WriteEvent) :=
  match input with
  | .missing => .error 2
  | .file n => parse cli env (.file n) parseDoc agent
  | .dir es => parse cli env (.dir es) parseDoc agent

/-! ### Concrete sample records

Test data used by the concrete theorems below.  The samples are written in
canonical form (all declared fields present, declaration order), so that
validation maps them to themselves. -/

/-- A concrete analyte record in canonical form. -/
def sampleAnalyte : Json :=
  .obj [("caption", .str "Natrium"), ("result", .str "140"),
        ("unit", .str "mmol/l"), ("reference", .str "136 - 145"),
        ("comments", .null), ("out_of_range", .bool false)]

/-- A concrete section record: a caption plus one analyte per named
field. -/
def sampleSection (fields : List String) : Json :=
  .obj (("caption", .str "c") :: fields.map (fun f => (f, sampleAnalyte)))

/-- A concrete IKC lab result covering all thirteen sections. -/
def sampleIKCLab : Json :=
  .obj [
    ("electrolyte_and_water_balance", sampleSection
      ["sodium", "potassium", "total_calcium", "albumin_corrected_calcium", "phosphate"]),
    ("kidney", sampleSection ["urea", "creatinine", "egfr_crea_ckd_epi_2009", "uric_acid"]),
    ("amino_acid_bilirubin_and_heme_metabolism", sampleSection ["bilirubin_total"]),
    ("proteins", sampleSection ["protein", "albumin"]),
    ("enzymes", sampleSection ["ast_got", "ggt", "alkaline_phosphatase"]),
    ("inflammation", sampleSection ["crp"]),
    ("heart_and_muscle", sampleSection ["ck_total", "troponin_t_hs", "nt_pro_bnp"]),
    ("diabetes_and_energy_metabolism", sampleSection
      ["glucose_hep_plasma", "hba1c_ngsp", "hba1c_ifcc"]),
    ("lipid_and_arteriosclerosis", sampleSection
      ["total_cholesterol", "hdl_cholesterol", "non_hdl_cholesterol",
       "ldl_cholesterol_sampson", "triglycerides", "lipoprotein_a",
       "apolipoprotein_a1", "apolipoprotein_b"]),
    ("iron_metabolism", sampleSection
      ["iron", "ferritin_eclia", "ferritin_risk_eclia", "transferrin"]),
    ("vitamins", sampleSection ["folic_acid", "vitamin_b12", "hydroxyvitamin_d"]),
    ("thyroid_function", sampleSection ["tsh_basal_ft4", "ft3_free", "ft4_free"]),
    ("sexual_hormones",
      .obj [("caption", .str "c"), ("testosterone", sampleAnalyte),
            ("estradiol", sampleAnalyte), ("lh", .null), ("fsh", .null),
            ("progesterone", .null)])]

/-- A concrete AKH lab result covering both examination groups. -/
def sampleAKHLab : Json :=
  .obj [
    ("hematological_examinations",
      .obj [("caption", .str "c"),
        ("blood_status", sampleSection
          ["hemoglobin", "hematocrit", "erythrocytes", "mcv", "mch", "mchc",
           "rdw", "platelets", "leukocytes"]),
        ("blood_count_absolute", sampleSection
          ["neutrophils", "monocytes", "eosinophils", "basophils",
           "lymphocytes", "immature_granulocytes", "nrbc_abs"]),
        ("blood_count_relative", sampleSection
          ["neutrophils", "monocytes", "eosinophils", "basophils",
           "lymphocytes", "immature_granulocytes", "nrbc"])]),
    ("hemostasis_examinations",
      .obj [("caption", .str "c"),
        ("coagulation_factors", sampleSection ["fibrinogen"])])]

/-- A canonical top-level report with the given gender value and lab
result. -/
def sampleReportWith (gender : Json) (lab : Json) : Json :=
  .obj [("report_id", .str "R1"), ("project", .str "P"),
        ("patient_id", .str "42"), ("gender", gender),
        ("birth_year", .str "1980"), ("daily_id", .str "7"),
        ("date", .str "01.01.24"), ("time", .str "08:00"),
        ("lab_result", lab)]

/-- A canonical IKC report with the given gender string. -/
def sampleIKCReport (g : String) : Json := sampleReportWith (.str g) sampleIKCLab

/-- A canonical AKH report with the given gender string. -/
def sampleAKHReport (g : String) : Json := sampleReportWith (.str g) sampleAKHLab

/-- Idempotency of a validator: validating an already-validated (canonical)
value returns it unchanged. -/
def Idem (p : Json → Option Json) : Prop :=
  ∀ j r, p j = some r → p r = some r

/-- Well-behavedness of one field specification: its validator is
idempotent and its default, if any, is canonical (validates to itself).
Every field of the `models.py` schemas satisfies this. -/
def FieldGood (f : FieldSpec) : Prop :=
  Idem f.parse ∧ ∀ d, f.dflt = some d → f.parse d = some d

/-! ## Theorems

Generic idempotency of the validator, schema-by-schema well-behavedness,
and the claim theorems. -/

theorem pStr_idem : Idem pStr := by
  intro j r h
  cases j with
  | str s =>
    simp only [pStr, Option.some.injEq] at h
    subst h; rfl
  | null => simp [pStr] at h
  | bool b => simp [pStr] at h
  | obj kvs => simp [pStr] at h

theorem pBool_idem : Idem pBool := by
  intro j r h
  cases j with
  | bool b =>
    simp only [pBool, Option.some.injEq] at h
    subst h; rfl
  | null => simp [pBool] at h
  | str s => simp [pBool] at h
  | obj kvs => simp [pBool] at h

theorem pNullable_of_parse {p : Json → Option Json} {r : Json}
    (h : p r = some r) : pNullable p r = some r := by
  cases r <;> simp [pNullable, h]

theorem pNullable_idem (p : Json → Option Json) (hp : Idem p) :
    Idem (pNullable p) := by
  intro j r h
  cases j with
  | null =>
    simp only [pNullable, Option.some.injEq] at h
    subst h; rfl
  | bool b => exact pNullable_of_parse (hp _ _ (by simpa [pNullable] using h))
  | str s => exact pNullable_of_parse (hp _ _ (by simpa [pNullable] using h))
  | obj kvs => exact pNullable_of_parse (hp _ _ (by simpa [pNullable] using h))

theorem good_required (n : String) (p : Json → Option Json) (hp : Idem p) :
    FieldGood ⟨n, p, none⟩ :=
  ⟨hp, fun _ h => by simp at h⟩

theorem good_strDefault (n s : String) : FieldGood ⟨n, pStr, some (.str s)⟩ :=
  ⟨pStr_idem, fun d h => by
    simp only [Option.some.injEq] at h
    subst h; rfl⟩

theorem good_nullDefault (n : String) (p : Json → Option Json) (hp : Idem p) :
    FieldGood ⟨n, pNullable p, some .null⟩ :=
  ⟨pNullable_idem p hp, fun d h => by
    simp only [Option.some.injEq] at h
    subst h; rfl⟩

theorem good_boolDefault (n : String) (b : Bool) :
    FieldGood ⟨n, pNullable pBool, some (.bool b)⟩ :=
  ⟨pNullable_idem pBool pBool_idem, fun d h => by
    simp only [Option.some.injEq] at h
    subst h; rfl⟩

theorem getF_head {α : Type} (k : String) (v : α) (kvs : List (String × α)) :
    getF k ((k, v) :: kvs) = some v := by
  simp [getF]

theorem pFields_extra (fs : List FieldSpec) (k : String) (v : Json)
    (kvs : List (String × Json)) (h : ∀ f ∈ fs, f.name ≠ k) :
    pFields fs ((k, v) :: kvs) = pFields fs kvs := by
  induction fs with
  | nil => rfl
  | cons f fs ih =>
    have hk : ¬(k = f.name) := fun e => h f (List.mem_cons_self f fs) e.symm
    have ih2 := ih fun g hg => h g (List.mem_cons_of_mem f hg)
    simp only [pFields, getF, if_neg hk, ih2]

theorem pFields_idem (fs : List FieldSpec)
    (hnd : (fs.map FieldSpec.name).Nodup)
    (hgood : ∀ f ∈ fs, FieldGood f) :
    ∀ kvs out, pFields fs kvs = some out → pFields fs out = some out := by
  induction fs with
  | nil =>
    intro kvs out h
    simp only [pFields, Option.some.injEq] at h
    subst h; rfl
  | cons f fs ih =>
    intro kvs out h
    simp only [List.map_cons, List.nodup_cons] at hnd
    obtain ⟨hname, hnd'⟩ := hnd
    have hgf := hgood f (List.mem_cons_self f fs)
    have hgfs : ∀ g ∈ fs, FieldGood g := fun g hg => hgood g (List.mem_cons_of_mem f hg)
    have hne : ∀ g ∈ fs, g.name ≠ f.name := by
      intro g hg e
      exact hname (e ▸ List.mem_map_of_mem FieldSpec.name hg)
    simp only [pFields, Option.bind_eq_some, Option.map_eq_some'] at h
    obtain ⟨pv, hpv, o, ho, hout⟩ := h
    subst hout
    have hparse : f.parse pv = some pv := by
      cases hv : getF f.name kvs with
      | some v =>
        rw [hv] at hpv
        exact hgf.1 v pv hpv
      | none =>
        rw [hv] at hpv
        exact hgf.2 pv hpv
    simp only [pFields, getF_head, hparse, Option.some_bind,
      pFields_extra fs f.name pv o hne, ih hnd' hgfs kvs o ho, Option.map_some']

theorem pModel_idem (fs : List FieldSpec)
    (hnd : (fs.map FieldSpec.name).Nodup)
    (hgood : ∀ f ∈ fs, FieldGood f) : Idem (pModel fs) := by
  intro j r h
  cases j with
  | obj kvs =>
    simp only [pModel] at h
    cases hf : pFields fs kvs with
    | none => rw [hf] at h; simp at h
    | some out =>
      rw [hf] at h
      simp only [Option.some.injEq] at h
      subst h
      simp only [pModel, pFields_idem fs hnd hgood kvs out hf]
  | null => simp [pModel] at h
  | bool b => simp [pModel] at h
  | str s => simp [pModel] at h

theorem Analyte_good : ∀ f ∈ Analyte, FieldGood f := by
  intro f hf
  simp only [Analyte, List.mem_cons, List.not_mem_nil, or_false] at hf
  rcases hf with rfl | rfl | rfl | rfl | rfl | rfl
  exacts [good_required _ _ pStr_idem, good_required _ _ pStr_idem,
    good_required _ _ pStr_idem, good_required _ _ pStr_idem,
    good_nullDefault _ _ pStr_idem, good_boolDefault _ _]

theorem Analyte_idem : Idem (pModel Analyte) :=
  pModel_idem Analyte (by decide) Analyte_good

theorem analyteField_good (n : String) : FieldGood ⟨n, pModel Analyte, none⟩ :=
  good_required _ _ Analyte_idem

theorem ElectrolyteAndWaterBalance_good : ∀ f ∈ ElectrolyteAndWaterBalance, FieldGood f := by
  intro f hf
  simp only [ElectrolyteAndWaterBalance, List.mem_cons, List.not_mem_nil, or_false] at hf
  rcases hf with rfl | rfl | rfl | rfl | rfl | rfl
  exacts [good_strDefault _ _, analyteField_good _, analyteField_good _,
    analyteField_good _, analyteField_good _, analyteField_good _]

theorem ElectrolyteAndWaterBalance_idem : Idem (pModel ElectrolyteAndWaterBalance) :=
  pModel_idem _ (by decide) ElectrolyteAndWaterBalance_good

theorem Kidney_good : ∀ f ∈ Kidney, FieldGood f := by
  intro f hf
  simp only [Kidney, List.mem_cons, List.not_mem_nil, or_false] at hf
  rcases hf with rfl | rfl | rfl | rfl | rfl
  exacts [good_strDefault _ _, analyteField_good _, analyteField_good _,
    analyteField_good _, analyteField_good _]

theorem Kidney_idem : Idem (pModel Kidney) :=
  pModel_idem _ (by decide) Kidney_good

theorem AminoAcidBilirubinAndHemeMetabolism_good :
    ∀ f ∈ AminoAcidBilirubinAndHemeMetabolism, FieldGood f := by
  intro f hf
  simp only [AminoAcidBilirubinAndHemeMetabolism, List.mem_cons, List.not_mem_nil,
    or_false] at hf
  rcases hf with rfl | rfl
  exacts [good_strDefault _ _, analyteField_good _]

theorem AminoAcidBilirubinAndHemeMetabolism_idem :
    Idem (pModel AminoAcidBilirubinAndHemeMetabolism) :=
  pModel_idem _ (by decide) AminoAcidBilirubinAndHemeMetabolism_good

theorem Proteins_good : ∀ f ∈ Proteins, FieldGood f := by
  intro f hf
  simp only [Proteins, List.mem_cons, List.not_mem_nil, or_false] at hf
  rcases hf with rfl | rfl | rfl
  exacts [good_strDefault _ _, analyteField_good _, analyteField_good _]

theorem Proteins_idem : Idem (pModel Proteins) :=
  pModel_idem _ (by decide) Proteins_good

theorem Enzymes_good : ∀ f ∈ Enzymes, FieldGood f := by
  intro f hf
  simp only [Enzymes, List.mem_cons, List.not_mem_nil, or_false] at hf
  rcases hf with rfl | rfl | rfl | rfl
  exacts [good_strDefault _ _, analyteField_good _, analyteField_good _,
    analyteField_good _]

theorem Enzymes_idem : Idem (pModel Enzymes) :=
  pModel_idem _ (by decide) Enzymes_good

theorem Inflammation_good : ∀ f ∈ Inflammation, FieldGood f := by
  intro f hf
  simp only [Inflammation, List.mem_cons, List.not_mem_nil, or_false] at hf
  rcases hf with rfl | rfl
  exacts [good_strDefault _ _, analyteField_good _]

theorem Inflammation_idem : Idem (pModel Inflammation) :=
  pModel_idem _ (by decide) Inflammation_good

theorem HeartAndMuscle_good : ∀ f ∈ HeartAndMuscle, FieldGood f := by
  intro f hf
  simp only [HeartAndMuscle, List.mem_cons, List.not_mem_nil, or_false] at hf
  rcases hf with rfl | rfl | rfl | rfl
  exacts [good_strDefault _ _, analyteField_good _, analyteField_good _,
    analyteField_good _]

theorem HeartAndMuscle_idem : Idem (pModel HeartAndMuscle) :=
  pModel_idem _ (by decide) HeartAndMuscle_good

theorem DiabetesAndEnergyMetabolism_good :
    ∀ f ∈ DiabetesAndEnergyMetabolism, FieldGood f := by
  intro f hf
  simp only [DiabetesAndEnergyMetabolism, List.mem_cons, List.not_mem_nil, or_false] at hf
  rcases hf with rfl | rfl | rfl | rfl
  exacts [good_strDefault _ _, analyteField_good _, analyteField_good _,
    analyteField_good _]

theorem DiabetesAndEnergyMetabolism_idem : Idem (pModel DiabetesAndEnergyMetabolism) :=
  pModel_idem _ (by decide) DiabetesAndEnergyMetabolism_good

theorem LipidAndArteriosclerosis_good : ∀ f ∈ LipidAndArteriosclerosis, FieldGood f := by
  intro f hf
  simp only [LipidAndArteriosclerosis, List.mem_cons, List.not_mem_nil, or_false] at hf
  rcases hf with rfl | rfl | rfl | rfl | rfl | rfl | rfl | rfl | rfl
  exacts [good_strDefault _ _, analyteField_good _, analyteField_good _,
    analyteField_good _, analyteField_good _, analyteField_good _,
    analyteField_good _, analyteField_good _, analyteField_good _]

theorem LipidAndArteriosclerosis_idem : Idem (pModel LipidAndArteriosclerosis) :=
  pModel_idem _ (by decide) LipidAndArteriosclerosis_good

theorem IronMetabolism_good : ∀ f ∈ IronMetabolism, FieldGood f := by
  intro f hf
  simp only [IronMetabolism, List.mem_cons, List.not_mem_nil, or_false] at hf
  rcases hf with rfl | rfl | rfl | rfl | rfl
  exacts [good_strDefault _ _, analyteField_good _, analyteField_good _,
    analyteField_good _, analyteField_good _]

theorem IronMetabolism_idem : Idem (pModel IronMetabolism) :=
  pModel_idem _ (by decide) IronMetabolism_good

theorem Vitamins_good : ∀ f ∈ Vitamins, FieldGood f := by
  intro f hf
  simp only [Vitamins, List.mem_cons, List.not_mem_nil, or_false] at hf
  rcases hf with rfl | rfl | rfl | rfl
  exacts [good_strDefault _ _, analyteField_good _, analyteField_good _,
    analyteField_good _]

theorem Vitamins_idem : Idem (pModel Vitamins) :=
  pModel_idem _ (by decide) Vitamins_good

theorem ThyroidFunction_good : ∀ f ∈ ThyroidFunction, FieldGood f := by
  intro f hf
  simp only [ThyroidFunction, List.mem_cons, List.not_mem_nil, or_false] at hf
  rcases hf with rfl | rfl | rfl | rfl
  exacts [good_strDefault _ _, analyteField_good _, analyteField_good _,
    analyteField_good _]

theorem ThyroidFunction_idem : Idem (pModel ThyroidFunction) :=
  pModel_idem _ (by decide) ThyroidFunction_good

theorem SexualHormones_good : ∀ f ∈ SexualHormones, FieldGood f := by
  intro f hf
  simp only [SexualHormones, List.mem_cons, List.not_mem_nil, or_false] at hf
  rcases hf with rfl | rfl | rfl | rfl | rfl | rfl
  exacts [good_strDefault _ _, analyteField_good _, analyteField_good _,
    good_nullDefault _ _ Analyte_idem, good_nullDefault _ _ Analyte_idem,
    good_nullDefault _ _ Analyte_idem]

theorem SexualHormones_idem : Idem (pModel SexualHormones) :=
  pModel_idem _ (by decide) SexualHormones_good

theorem IKCLabResult_good : ∀ f ∈ IKCLabResult, FieldGood f := by
  intro f hf
  simp only [IKCLabResult, List.mem_cons, List.not_mem_nil, or_false] at hf
  rcases hf with rfl | rfl | rfl | rfl | rfl | rfl | rfl | rfl | rfl | rfl | rfl | rfl | rfl
  exacts [good_required _ _ ElectrolyteAndWaterBalance_idem,
    good_required _ _ Kidney_idem,
    good_required _ _ AminoAcidBilirubinAndHemeMetabolism_idem,
    good_required _ _ Proteins_idem,
    good_required _ _ Enzymes_idem,
    good_required _ _ Inflammation_idem,
    good_required _ _ HeartAndMuscle_idem,
    good_required _ _ DiabetesAndEnergyMetabolism_idem,
    good_required _ _ LipidAndArteriosclerosis_idem,
    good_required _ _ IronMetabolism_idem,
    good_required _ _ Vitamins_idem,
    good_required _ _ ThyroidFunction_idem,
    good_required _ _ SexualHormones_idem]

theorem IKCLabResult_idem : Idem (pModel IKCLabResult) :=
  pModel_idem _ (by decide) IKCLabResult_good

theorem ExplicitIKCReport_good : ∀ f ∈ ExplicitIKCReport, FieldGood f := by
  intro f hf
  simp only [ExplicitIKCReport, List.mem_cons, List.not_mem_nil, or_false] at hf
  rcases hf with rfl | rfl | rfl | rfl | rfl | rfl | rfl | rfl | rfl
  exacts [good_required _ _ pStr_idem, good_required _ _ pStr_idem,
    good_required _ _ pStr_idem, good_nullDefault _ _ pStr_idem,
    good_nullDefault _ _ pStr_idem,
    good_required _ _ (pNullable_idem pStr pStr_idem),
    good_required _ _ (pNullable_idem pStr pStr_idem),
    good_required _ _ (pNullable_idem pStr pStr_idem),
    good_required _ _ IKCLabResult_idem]

theorem ExplicitIKCReport_idem : Idem (pModel ExplicitIKCReport) :=
  pModel_idem _ (by decide) ExplicitIKCReport_good

theorem BloodStatus_good : ∀ f ∈ BloodStatus, FieldGood f := by
  intro f hf
  simp only [BloodStatus, List.mem_cons, List.not_mem_nil, or_false] at hf
  rcases hf with rfl | rfl | rfl | rfl | rfl | rfl | rfl | rfl | rfl | rfl
  exacts [good_strDefault _ _, analyteField_good _, analyteField_good _,
    analyteField_good _, analyteField_good _, analyteField_good _,
    analyteField_good _, analyteField_good _, analyteField_good _,
    analyteField_good _]

theorem BloodStatus_idem : Idem (pModel BloodStatus) :=
  pModel_idem _ (by decide) BloodStatus_good

theorem BloodCountAbsolute_good : ∀ f ∈ BloodCountAbsolute, FieldGood f := by
  intro f hf
  simp only [BloodCountAbsolute, List.mem_cons, List.not_mem_nil, or_false] at hf
  rcases hf with rfl | rfl | rfl | rfl | rfl | rfl | rfl | rfl
  exacts [good_strDefault _ _, analyteField_good _, analyteField_good _,
    analyteField_good _, analyteField_good _, analyteField_good _,
    analyteField_good _, analyteField_good _]

theorem BloodCountAbsolute_idem : Idem (pModel BloodCountAbsolute) :=
  pModel_idem _ (by decide) BloodCountAbsolute_good

theorem BloodCountRelative_good : ∀ f ∈ BloodCountRelative, FieldGood f := by
  intro f hf
  simp only [BloodCountRelative, List.mem_cons, List.not_mem_nil, or_false] at hf
  rcases hf with rfl | rfl | rfl | rfl | rfl | rfl | rfl | rfl
  exacts [good_strDefault _ _, analyteField_good _, analyteField_good _,
    analyteField_good _, analyteField_good _, analyteField_good _,
    analyteField_good _, analyteField_good _]

theorem BloodCountRelative_idem : Idem (pModel BloodCountRelative) :=
  pModel_idem _ (by decide) BloodCountRelative_good

theorem HematologicalExaminations_good : ∀ f ∈ HematologicalExaminations, FieldGood f := by
  intro f hf
  simp only [HematologicalExaminations, List.mem_cons, List.not_mem_nil, or_false] at hf
  rcases hf with rfl | rfl | rfl | rfl
  exacts [good_strDefault _ _, good_required _ _ BloodStatus_idem,
    good_required _ _ BloodCountAbsolute_idem,
    good_required _ _ BloodCountRelative_idem]

theorem HematologicalExaminations_idem : Idem (pModel HematologicalExaminations) :=
  pModel_idem _ (by decide) HematologicalExaminations_good

theorem CoagulationFactors_good : ∀ f ∈ CoagulationFactors, FieldGood f := by
  intro f hf
  simp only [CoagulationFactors, List.mem_cons, List.not_mem_nil, or_false] at hf
  rcases hf with rfl | rfl
  exacts [good_strDefault _ _, analyteField_good _]

theorem CoagulationFactors_idem : Idem (pModel CoagulationFactors) :=
  pModel_idem _ (by decide) CoagulationFactors_good

theorem HemostasisExaminations_good : ∀ f ∈ HemostasisExaminations, FieldGood f := by
  intro f hf
  simp only [HemostasisExaminations, List.mem_cons, List.not_mem_nil, or_false] at hf
  rcases hf with rfl | rfl
  exacts [good_strDefault _ _, good_required _ _ CoagulationFactors_idem]

theorem HemostasisExaminations_idem : Idem (pModel HemostasisExaminations) :=
  pModel_idem _ (by decide) HemostasisExaminations_good

theorem AKHLabResult_good : ∀ f ∈ AKHLabResult, FieldGood f := by
  intro f hf
  simp only [AKHLabResult, List.mem_cons, List.not_mem_nil, or_false] at hf
  rcases hf with rfl | rfl
  exacts [good_required _ _ HematologicalExaminations_idem,
    good_required _ _ HemostasisExaminations_idem]

theorem AKHLabResult_idem : Idem (pModel AKHLabResult) :=
  pModel_idem _ (by decide) AKHLabResult_good

theorem ExplicitAKHReport_good : ∀ f ∈ ExplicitAKHReport, FieldGood f := by
  intro f hf
  simp only [ExplicitAKHReport, List.mem_cons, List.not_mem_nil, or_false] at hf
  rcases hf with rfl | rfl | rfl | rfl | rfl | rfl | rfl | rfl | rfl
  exacts [good_required _ _ pStr_idem, good_required _ _ pStr_idem,
    good_required _ _ pStr_idem, good_nullDefault _ _ pStr_idem,
    good_nullDefault _ _ pStr_idem,
    good_required _ _ (pNullable_idem pStr pStr_idem),
    good_required _ _ (pNullable_idem pStr pStr_idem),
    good_required _ _ (pNullable_idem pStr pStr_idem),
    good_required _ _ AKHLabResult_idem]

theorem ExplicitAKHReport_idem : Idem (pModel ExplicitAKHReport) :=
  pModel_idem _ (by decide) ExplicitAKHReport_good

theorem lookupSchema_eq_none (tag : String) (h1 : tag ≠ "IKC") (h2 : tag ≠ "AKH") :
    lookupSchema tag = none := by
  simp only [lookupSchema, schemas, getF]
  rw [if_neg fun e => h1 e.symm, if_neg fun e => h2 e.symm]

theorem lookupSchema_cases (tag : String) (s : List FieldSpec)
    (h : lookupSchema tag = some s) :
    s = ExplicitIKCReport ∨ s = ExplicitAKHReport := by
  simp only [lookupSchema, schemas, getF] at h
  by_cases h1 : ("IKC" : String) = tag
  · rw [if_pos h1] at h
    exact Or.inl (Option.some.inj h).symm
  · rw [if_neg h1] at h
    by_cases h2 : ("AKH" : String) = tag
    · rw [if_pos h2] at h
      exact Or.inr (Option.some.inj h).symm
    · rw [if_neg h2] at h
      cases h

/-- C1: for every report-type tag in the closed enumeration
consisting of "IKC" and "AKH", the structured extraction dispatcher
`extract_structured` selects the schema fixed for that tag — "IKC" selects
`ExplicitIKCReport` and "AKH" selects `ExplicitAKHReport` — and, assuming
the external agent honours its contract of returning only values validated
against the schema it was given, the record the dispatcher returns
conforms to (validates against, in canonical form) that selected
schema. -/
theorem C1_dispatch_selects_schema
    (agent : List FieldSpec → String → Option Json)
    (hagent : ∀ tag s, lookupSchema tag = some s →
      ∀ text j, agent s text = some j → pModel s j = some j) :
    lookupSchema "IKC" = some ExplicitIKCReport ∧
    lookupSchema "AKH" = some ExplicitAKHReport ∧
    (∀ text mn bu key r,
      extract_structured agent text mn bu "IKC" key = .ok r →
      pModel ExplicitIKCReport r = some r) ∧
    (∀ text mn bu key r,
      extract_structured agent text mn bu "AKH" key = .ok r →
      pModel ExplicitAKHReport r = some r) := by
  refine ⟨rfl, rfl, ?_, ?_⟩
  · intro text mn bu key r h
    have h2 : (match agent ExplicitIKCReport text with
        | some out => (Except.ok out : Except ExtractError Json)
        | none => .error .extractionFailed) = .ok r := h
    cases ha : agent ExplicitIKCReport text with
    | none =>
      rw [ha] at h2
      have h3 : (Except.error .extractionFailed : Except ExtractError Json) = .ok r := h2
      cases h3
    | some out =>
      rw [ha] at h2
      have h3 : (Except.ok out : Except ExtractError Json) = .ok r := h2
      cases Except.ok.inj h3
      exact hagent "IKC" ExplicitIKCReport rfl text _ ha
  · intro text mn bu key r h
    have h2 : (match agent ExplicitAKHReport text with
        | some out => (Except.ok out : Except ExtractError Json)
        | none => .error .extractionFailed) = .ok r := h
    cases ha : agent ExplicitAKHReport text with
    | none =>
      rw [ha] at h2
      have h3 : (Except.error .extractionFailed : Except ExtractError Json) = .ok r := h2
      cases h3
    | some out =>
      rw [ha] at h2
      have h3 : (Except.ok out : Except ExtractError Json) = .ok r := h2
      cases Except.ok.inj h3
      exact hagent "AKH" ExplicitAKHReport rfl text _ ha

/-- Witness for C1: a concrete agent that answers with the validation of a
fixed canonical IKC report satisfies the agent contract, and dispatching
on "IKC" with it yields that record, which conforms to
`ExplicitIKCReport`. -/
theorem C1_dispatch_selects_schema_witness :
    extract_structured (fun s _ => pModel s (sampleIKCReport "M"))
      "text" "model" "url" "IKC" none = .ok (sampleIKCReport "M") ∧
    pModel ExplicitIKCReport (sampleIKCReport "M") = some (sampleIKCReport "M") := by
  have hagent : ∀ tag s, lookupSchema tag = some s →
      ∀ text j, (fun (s : List FieldSpec) (_ : String) =>
        pModel s (sampleIKCReport "M")) s text = some j → pModel s j = some j := by
    intro tag s hs text j hj
    rcases lookupSchema_cases tag s hs with rfl | rfl
    · exact ExplicitIKCReport_idem _ _ hj
    · exact ExplicitAKHReport_idem _ _ hj
  refine ⟨rfl, ?_⟩
  exact (C1_dispatch_selects_schema _ hagent).2.2.1 "text" "model" "url" none
    (sampleIKCReport "M") rfl

/-- C2: for both report-type tags the registry returns a schema whose
required top-level fields are exactly report_id, project, patient_id,
daily_id, date, time and lab_result (in declaration order) and whose
optional top-level fields are exactly gender and birth_year. -/
theorem C2_top_level_fields :
    lookupSchema "IKC" = some ExplicitIKCReport ∧
    lookupSchema "AKH" = some ExplicitAKHReport ∧
    requiredFields ExplicitIKCReport =
      ["report_id", "project", "patient_id", "daily_id", "date", "time", "lab_result"] ∧
    optionalFields ExplicitIKCReport = ["gender", "birth_year"] ∧
    requiredFields ExplicitAKHReport =
      ["report_id", "project", "patient_id", "daily_id", "date", "time", "lab_result"] ∧
    optionalFields ExplicitAKHReport = ["gender", "birth_year"] :=
  ⟨rfl, rfl, rfl, rfl, rfl, rfl⟩

/-- C3: invoking the dispatcher with a tag outside the enumeration fails
with the unknown-report-type condition (the `KeyError` of the schema dict
lookup) for every input text and connection parameters; in particular it
never silently defaults to either schema. -/
theorem C3_unknown_tag_fails
    (agent : List FieldSpec → String → Option Json) (tag : String)
    (h1 : tag ≠ "IKC") (h2 : tag ≠ "AKH") :
    ∀ text mn bu key, extract_structured agent text mn bu tag key =
      .error (.unknownReportType tag) := by
  intro text mn bu key
  unfold extract_structured
  rw [lookupSchema_eq_none tag h1 h2]

/-- Witness for C3 at the concrete tag "XYZ". -/
theorem C3_unknown_tag_fails_witness :
    ("XYZ" : String) ≠ "IKC" ∧ ("XYZ" : String) ≠ "AKH" ∧
    extract_structured (fun _ _ => none) "text" "model" "url" "XYZ" none =
      .error (.unknownReportType "XYZ") :=
  ⟨by decide, by decide,
    C3_unknown_tag_fails (fun _ _ => none) "XYZ" (by decide) (by decide)
      "text" "model" "url" none⟩

/-- C4: report-type auto-detection is a total function on filenames whose
result is always one of the two tags; it returns "IKC" without warning
when the uppercased filename contains "IKC_", otherwise "AKH" without
warning when it contains "AKH_", and otherwise "IKC" with the warning
emitted; the three spec examples behave as stated.  (The second component
of `detect_analysis_type` records whether the warning branch was
taken.) -/
theorem C4_detect_analysis_type_total (fn : String) :
    ((detect_analysis_type fn).1 = "IKC" ∨ (detect_analysis_type fn).1 = "AKH") ∧
    (hasSub (pyUpper fn) "IKC_" = true →
      detect_analysis_type fn = ("IKC", false)) ∧
    (hasSub (pyUpper fn) "IKC_" = false → hasSub (pyUpper fn) "AKH_" = true →
      detect_analysis_type fn = ("AKH", false)) ∧
    (hasSub (pyUpper fn) "IKC_" = false → hasSub (pyUpper fn) "AKH_" = false →
      detect_analysis_type fn = ("IKC", true)) ∧
    detect_analysis_type "IKC_12345.pdf" = ("IKC", false) ∧
    detect_analysis_type "AKH_98765.pdf" = ("AKH", false) ∧
    detect_analysis_type "report_007.pdf" = ("IKC", true) := by
  refine ⟨?_, ?_, ?_, ?_, rfl, rfl, rfl⟩
  · by_cases h1 : hasSub (pyUpper fn) "IKC_" <;>
      by_cases h2 : hasSub (pyUpper fn) "AKH_" <;>
      simp [detect_analysis_type, h1, h2]
  · intro h1
    simp [detect_analysis_type, h1]
  · intro h1 h2
    simp [detect_analysis_type, h1, h2]
  · intro h1 h2
    simp [detect_analysis_type, h1, h2]

/-- Witness for C4: all three branches exercised at concrete filenames,
including a lowercase one for case-insensitivity. -/
theorem C4_detect_analysis_type_total_witness :
    hasSub (pyUpper "ikc_1.pdf") "IKC_" = true ∧
    detect_analysis_type "ikc_1.pdf" = ("IKC", false) ∧
    hasSub (pyUpper "akh_1.pdf") "IKC_" = false ∧
    hasSub (pyUpper "akh_1.pdf") "AKH_" = true ∧
    detect_analysis_type "akh_1.pdf" = ("AKH", false) ∧
    hasSub (pyUpper "scan.pdf") "IKC_" = false ∧
    hasSub (pyUpper "scan.pdf") "AKH_" = false ∧
    detect_analysis_type "scan.pdf" = ("IKC", true) :=
  ⟨rfl, (C4_detect_analysis_type_total "ikc_1.pdf").2.1 rfl,
   rfl, rfl, (C4_detect_analysis_type_total "akh_1.pdf").2.2.1 rfl rfl,
   rfl, rfl, (C4_detect_analysis_type_total "scan.pdf").2.2.2.1 rfl rfl⟩

/-- C10: when the uppercased filename contains both "IKC_" and "AKH_",
auto-detection returns "IKC" without a warning — the IKC check of the
if/elif chain takes precedence. -/
theorem C10_ikc_precedence (fn : String)
    (h1 : hasSub (pyUpper fn) "IKC_" = true)
    (h2 : hasSub (pyUpper fn) "AKH_" = true) :
    detect_analysis_type fn = ("IKC", false) := by
  simp only [detect_analysis_type, h1, if_true]

/-- Witness for C10 at a filename containing both substrings. -/
theorem C10_ikc_precedence_witness :
    hasSub (pyUpper "IKC_AKH_1.pdf") "IKC_" = true ∧
    hasSub (pyUpper "IKC_AKH_1.pdf") "AKH_" = true ∧
    detect_analysis_type "IKC_AKH_1.pdf" = ("IKC", false) :=
  ⟨rfl, rfl, C10_ikc_precedence "IKC_AKH_1.pdf" rfl rfl⟩

/-- Counterexample to C5: a complete IKC report and a complete AKH report
whose gender field is the string "X" — outside the domain consisting of
"M" and "W" — both validate successfully (and are returned unchanged), so
a gender outside the domain is not a validation failure. -/
theorem C5_counterexample_gender_X_accepted :
    pModel ExplicitIKCReport (sampleIKCReport "X") = some (sampleIKCReport "X") ∧
    pModel ExplicitAKHReport (sampleAKHReport "X") = some (sampleAKHReport "X") :=
  ⟨rfl, rfl⟩

/-- C5 amended: in both report schemas the gender field is a plain
`Optional[str]` with no domain constraint — validation accepts every
string gender (and null); the domain consisting of "M" and "W" appears
only as guidance in the extraction prompt, not in the schema. -/
theorem C5_gender_unconstrained (g : String) :
    pModel ExplicitIKCReport (sampleIKCReport g) = some (sampleIKCReport g) ∧
    pModel ExplicitAKHReport (sampleAKHReport g) = some (sampleAKHReport g) ∧
    pModel ExplicitIKCReport (sampleReportWith .null sampleIKCLab) =
      some (sampleReportWith .null sampleIKCLab) :=
  ⟨rfl, rfl, rfl⟩

/-- C6: validation of either report schema is idempotent.  A structured
record is the canonical JSON value produced by a successful validation;
`model_dump_json` emits exactly that canonical value (all declared fields,
declaration order), so serialising a record and parsing the JSON back is
revalidation of the canonical value — which returns the record equal in
all fields. -/
theorem C6_serialization_roundtrip :
    (∀ j r, pModel ExplicitIKCReport j = some r →
      pModel ExplicitIKCReport r = some r) ∧
    (∀ j r, pModel ExplicitAKHReport j = some r →
      pModel ExplicitAKHReport r = some r) :=
  ⟨ExplicitIKCReport_idem, ExplicitAKHReport_idem⟩

/-- Witness for C6 at concrete canonical records of both schemas. -/
theorem C6_serialization_roundtrip_witness :
    pModel ExplicitIKCReport (sampleIKCReport "M") = some (sampleIKCReport "M") ∧
    pModel ExplicitAKHReport (sampleAKHReport "W") = some (sampleAKHReport "W") :=
  ⟨C6_serialization_roundtrip.1 (sampleIKCReport "M") (sampleIKCReport "M") rfl,
   C6_serialization_roundtrip.2 (sampleAKHReport "W") (sampleAKHReport "W") rfl⟩

theorem countJson_append (a b : List WriteEvent) :
    countJson (a ++ b) = countJson a + countJson b := by
  simp [countJson, List.filter_append]

theorem process_single_pdf_json_count
    (pd : String → Except String String) (ag : List FieldSpec → String → Option Json)
    (f tag mn bu : String) (key : Option String) (st : Bool) :
    countJson (process_single_pdf pd ag f tag mn bu key st).2 =
      if (process_single_pdf pd ag f tag mn bu key st).1 then 1 else 0 := by
  unfold process_single_pdf
  split
  · rfl
  · split <;> split <;> rfl

theorem length_filter_split (p : String → Bool) (l : List String) :
    (l.filter p).length + (l.filter (fun x => !(p x))).length = l.length := by
  induction l with
  | nil => rfl
  | cons x xs ih =>
    cases h : p x <;> simp [List.filter_cons, h] <;> omega

theorem processBatch_succ
    (pd : String → Except String String) (ag : List FieldSpec → String → Option Json)
    (aty : Option String) (mn bu : String) (key : Option String) (st : Bool)
    (files : List String) :
    (processBatch pd ag aty mn bu key st files).1 =
      (files.filter
        (fun f => (process_single_pdf pd ag f (tagFor aty f) mn bu key st).1)).length := by
  induction files with
  | nil => rfl
  | cons f fs ih =>
    cases hok : (process_single_pdf pd ag f (tagFor aty f) mn bu key st).1 <;>
      simp [processBatch, List.filter_cons, hok, ih]

theorem processBatch_fail
    (pd : String → Except String String) (ag : List FieldSpec → String → Option Json)
    (aty : Option String) (mn bu : String) (key : Option String) (st : Bool)
    (files : List String) :
    (processBatch pd ag aty mn bu key st files).2.1 =
      (files.filter
        (fun f => !(process_single_pdf pd ag f (tagFor aty f) mn bu key st).1)).length := by
  induction files with
  | nil => rfl
  | cons f fs ih =>
    cases hok : (process_single_pdf pd ag f (tagFor aty f) mn bu key st).1 <;>
      simp [processBatch, List.filter_cons, hok, ih]

theorem processBatch_json
    (pd : String → Except String String) (ag : List FieldSpec → String → Option Json)
    (aty : Option String) (mn bu : String) (key : Option String) (st : Bool)
    (files : List String) :
    countJson (processBatch pd ag aty mn bu key st files).2.2 =
      (processBatch pd ag aty mn bu key st files).1 := by
  induction files with
  | nil => rfl
  | cons f fs ih =>
    have hc := process_single_pdf_json_count pd ag f (tagFor aty f) mn bu key st
    cases hok : (process_single_pdf pd ag f (tagFor aty f) mn bu key st).1 <;>
      rw [hok] at hc <;>
      simp [processBatch, countJson_append, hok, hc, ih] <;>
      omega

/-- C7: every exception of a single file's processing is absorbed at the
`process_single_pdf` boundary into a boolean (both external calls are
`Except`-valued oracles and every failure maps to `false`, so nothing
crosses into the loop); consequently in a batch of n files of which k
fail, all n are attempted (successes and failures sum to n), the summary
reports n−k successful and k failed, and exactly n−k JSON output files
are written. -/
theorem C7_batch_error_isolation
    (pd : String → Except String String) (ag : List FieldSpec → String → Option Json)
    (aty : Option String) (mn bu : String) (key : Option String) (st : Bool)
    (files : List String) :
    (processBatch pd ag aty mn bu key st files).1 +
      (processBatch pd ag aty mn bu key st files).2.1 = files.length ∧
    (processBatch pd ag aty mn bu key st files).2.1 =
      (files.filter
        (fun f => !(process_single_pdf pd ag f (tagFor aty f) mn bu key st).1)).length ∧
    (processBatch pd ag aty mn bu key st files).1 =
      files.length - (files.filter
        (fun f => !(process_single_pdf pd ag f (tagFor aty f) mn bu key st).1)).length ∧
    countJson (processBatch pd ag aty mn bu key st files).2.2 =
      files.length - (files.filter
        (fun f => !(process_single_pdf pd ag f (tagFor aty f) mn bu key st).1)).length := by
  have h1 := processBatch_succ pd ag aty mn bu key st files
  have h2 := processBatch_fail pd ag aty mn bu key st files
  have h3 := processBatch_json pd ag aty mn bu key st files
  have h4 := length_filter_split
    (fun f => (process_single_pdf pd ag f (tagFor aty f) mn bu key st).1) files
  refine ⟨?_, h2, ?_, ?_⟩ <;> omega

/-- C8: when the model name is absent both on the command line and in the
environment — or likewise the base URL — the `parse` command exits with
code 1, for every input path and every behaviour of the external
collaborators: the configuration check precedes PDF discovery and
processing, so no file is consulted and the error result carries no write
events. -/
theorem C8_missing_config_exits_1 (cli : CliOptions) (env : EnvVars)
    (input : PathKind) (pd : String → Except String String)
    (ag : List FieldSpec → String → Option Json)
    (h : (cli.model_name = none ∧ env.MODEL_NAME = none) ∨
         (cli.base_url = none ∧ env.BASE_URL = none)) :
    parse cli env input pd ag = .error 1 := by
  rcases h with ⟨h1, h2⟩ | ⟨h1, h2⟩
  · simp [parse, h1, h2, pyOr, pyFalsy]
  · by_cases hm : pyFalsy (pyOr cli.model_name env.MODEL_NAME) = true
    · simp [parse, hm]
    · simp [parse, hm, h1, h2, pyOr, pyFalsy]

/-- Witness for C8: the CLI with no options and an empty environment on a
directory of one PDF exits with code 1. -/
theorem C8_missing_config_exits_1_witness :
    parse ⟨none, false, none, none, none⟩ ⟨none, none, none⟩
      (.dir ["IKC_1.pdf"]) (fun _ => .ok "text") (fun _ _ => none) = .error 1 :=
  C8_missing_config_exits_1 _ _ _ _ _ (.inl ⟨rfl, rfl⟩)

theorem find_pdf_files_error_code (input : PathKind) (c : Nat)
    (h : find_pdf_files input = .error c) : c = 1 := by
  cases input with
  | file n =>
    simp only [find_pdf_files] at h
    split at h
    · cases h
    · injection h with h
      exact h.symm
  | dir es =>
    simp only [find_pdf_files] at h
    split at h
    · injection h with h
      exact h.symm
    · cases h
  | missing =>
    simp only [find_pdf_files] at h
    injection h with h
    exact h.symm

/-- Exit behaviour of the command body `parse`: exit code 1 on every setup
error it detects — falsy resolved model name, falsy resolved base URL, a
single-file input whose lowercased suffix is not ".pdf", a missing input
path reaching the body, or a directory with no entry matching `*.pdf` —
and in every other case a normal return (exit code 0) with the batch
summary, whatever the per-file outcomes; moreover every error exit of the
body carries code 1. -/
theorem parse_exit_codes (cli : CliOptions) (env : EnvVars)
    (pd : String → Except String String)
    (ag : List FieldSpec → String → Option Json) :
    (∀ input, pyFalsy (pyOr cli.model_name env.MODEL_NAME) = true →
      parse cli env input pd ag = .error 1) ∧
    (∀ input, pyFalsy (pyOr cli.base_url env.BASE_URL) = true →
      parse cli env input pd ag = .error 1) ∧
    (∀ n, pyLower (pathSuffix n) ≠ ".pdf" →
      parse cli env (.file n) pd ag = .error 1) ∧
    parse cli env .missing pd ag = .error 1 ∧
    (∀ es, es.filter (fun nm => (".pdf".toList).isSuffixOf nm.toList) = [] →
      parse cli env (.dir es) pd ag = .error 1) ∧
    (∀ input files, pyFalsy (pyOr cli.model_name env.MODEL_NAME) = false →
      pyFalsy (pyOr cli.base_url env.BASE_URL) = false →
      find_pdf_files input = .ok files →
      parse cli env input pd ag = .ok (processBatch pd ag cli.analysis_type
        ((pyOr cli.model_name env.MODEL_NAME).getD "")
        ((pyOr cli.base_url env.BASE_URL).getD "")
        (pyOr cli.api_key env.API_KEY) cli.save_txt files)) ∧
    (∀ input c, parse cli env input pd ag = .error c → c = 1) := by
  refine ⟨?_, ?_, ?_, ?_, ?_, ?_, ?_⟩
  · intro input hm
    simp [parse, hm]
  · intro input hb
    by_cases hm : pyFalsy (pyOr cli.model_name env.MODEL_NAME) = true
    · simp [parse, hm]
    · simp [parse, hm, hb]
  · intro n hn
    by_cases hm : pyFalsy (pyOr cli.model_name env.MODEL_NAME) = true
    · simp [parse, hm]
    · by_cases hb : pyFalsy (pyOr cli.base_url env.BASE_URL) = true
      · simp [parse, hm, hb]
      · have hf : find_pdf_files (.file n) = .error 1 := by
          simp [find_pdf_files, hn]
        simp [parse, hm, hb, hf]
  · by_cases hm : pyFalsy (pyOr cli.model_name env.MODEL_NAME) = true
    · simp [parse, hm]
    · by_cases hb : pyFalsy (pyOr cli.base_url env.BASE_URL) = true
      · simp [parse, hm, hb]
      · simp [parse, hm, hb, find_pdf_files]
  · intro es hes
    by_cases hm : pyFalsy (pyOr cli.model_name env.MODEL_NAME) = true
    · simp [parse, hm]
    · by_cases hb : pyFalsy (pyOr cli.base_url env.BASE_URL) = true
      · simp [parse, hm, hb]
      · have hf : find_pdf_files (.dir es) = .error 1 := by
          simp only [find_pdf_files, hes, List.isEmpty_nil, if_true]
        simp [parse, hm, hb, hf]
  · intro input files hm hb hf
    simp [parse, hm, hb, hf]
  · intro input c h
    by_cases hm : pyFalsy (pyOr cli.model_name env.MODEL_NAME) = true
    · simp [parse, hm] at h
      omega
    · by_cases hb : pyFalsy (pyOr cli.base_url env.BASE_URL) = true
      · simp [parse, hm, hb] at h
        omega
      · cases hf : find_pdf_files input with
        | error code =>
          have h2 : parse cli env input pd ag = .error code := by
            simp [parse, hm, hb, hf]
          rw [h2] at h
          injection h with h3
          exact h3 ▸ find_pdf_files_error_code input code hf
        | ok fs =>
          have h2 : parse cli env input pd ag = .ok (processBatch pd ag cli.analysis_type
              ((pyOr cli.model_name env.MODEL_NAME).getD "")
              ((pyOr cli.base_url env.BASE_URL).getD "")
              (pyOr cli.api_key env.API_KEY) cli.save_txt fs) := by
            simp [parse, hm, hb, hf]
          rw [h2] at h
          cases h

/-- Counterexample to C9: invoking the CLI with full configuration on a
nonexistent input path exits with the framework's usage-error code 2 —
the argument pre-validation declared by `typer.Argument(exists=True)`
rejects the path before the command body runs — not with code 1 as the
claim states. -/
theorem C9_counterexample_missing_path_exits_2 :
    parse_cli ⟨none, false, some "m", some "u", none⟩ ⟨none, none, none⟩
      .missing (fun _ => .ok "text") (fun _ _ => none) = .error 2 ∧
    ¬ parse_cli ⟨none, false, some "m", some "u", none⟩ ⟨none, none, none⟩
      .missing (fun _ => .ok "text") (fun _ _ => none) = .error 1 := by
  refine ⟨rfl, ?_⟩
  intro h
  have h2 : (Except.error 2 : Except Nat (Nat × Nat × List WriteEvent)) = .error 1 := h
  injection h2 with h3
  exact absurd h3 (by decide)

/-- C9 (amended): through the CLI a nonexistent input path is rejected by
the framework's declared argument pre-validation with the usage-error exit
code 2 before the command body runs, while an existing path flows through
to the body unchanged; the body exits with code 1 on every setup error it
detects — missing model name or base URL, a single-file input that is not
a PDF, a directory with no PDFs, and its own (CLI-unreachable)
missing-path branch — and in every other case returns normally (exit code
0) with the batch summary, even when some files in the batch failed;
every error exit of the body carries code 1. -/
theorem C9_exit_codes_amended (cli : CliOptions) (env : EnvVars)
    (pd : String → Except String String)
    (ag : List FieldSpec → String → Option Json) :
    parse_cli cli env .missing pd ag = .error 2 ∧
    (∀ n, parse_cli cli env (.file n) pd ag = parse cli env (.file n) pd ag) ∧
    (∀ es, parse_cli cli env (.dir es) pd ag = parse cli env (.dir es) pd ag) ∧
    (∀ input, pyFalsy (pyOr cli.model_name env.MODEL_NAME) = true →
      parse cli env input pd ag = .error 1) ∧
    (∀ input, pyFalsy (pyOr cli.base_url env.BASE_URL) = true →
      parse cli env input pd ag = .error 1) ∧
    (∀ n, pyLower (pathSuffix n) ≠ ".pdf" →
      parse cli env (.file n) pd ag = .error 1) ∧
    parse cli env .missing pd ag = .error 1 ∧
    (∀ es, es.filter (fun nm => (".pdf".toList).isSuffixOf nm.toList) = [] →
      parse cli env (.dir es) pd ag = .error 1) ∧
    (∀ input files, pyFalsy (pyOr cli.model_name env.MODEL_NAME) = false →
      pyFalsy (pyOr cli.base_url env.BASE_URL) = false →
      find_pdf_files input = .ok files →
      parse cli env input pd ag = .ok (processBatch pd ag cli.analysis_type
        ((pyOr cli.model_name env.MODEL_NAME).getD "")
        ((pyOr cli.base_url env.BASE_URL).getD "")
        (pyOr cli.api_key env.API_KEY) cli.save_txt files)) ∧
    (∀ input c, parse cli env input pd ag = .error c → c = 1) := by
  obtain ⟨h1, h2, h3, h4, h5, h6, h7⟩ := parse_exit_codes cli env pd ag
  exact ⟨rfl, fun _ => rfl, fun _ => rfl, h1, h2, h3, h4, h5, h6, h7⟩

/-- Witness for the amended C9: the framework rejects a nonexistent path
with code 2; a non-PDF single-file input exits with code 1 even with full
configuration; and a well-configured run on a directory whose only PDF
fails to convert returns normally with summary 0 successful, 1 failed and
no writes. -/
theorem C9_exit_codes_amended_witness :
    parse_cli ⟨none, false, some "m", some "u", none⟩ ⟨none, none, none⟩
      .missing (fun _ => .ok "text") (fun _ _ => none) = .error 2 ∧
    pyLower (pathSuffix "notes.txt") ≠ ".pdf" ∧
    parse ⟨none, false, some "m", some "u", none⟩ ⟨none, none, none⟩
      (.file "notes.txt") (fun _ => .ok "text") (fun _ _ => none) = .error 1 ∧
    pyFalsy (pyOr (some "m") none) = false ∧
    pyFalsy (pyOr (some "u") none) = false ∧
    find_pdf_files (.dir ["AKH_1.pdf"]) = .ok ["AKH_1.pdf"] ∧
    parse ⟨none, false, some "m", some "u", none⟩ ⟨none, none, none⟩
      (.dir ["AKH_1.pdf"]) (fun _ => .error "conversion failed")
      (fun _ _ => none) = .ok (0, 1, []) :=
  ⟨(C9_exit_codes_amended ⟨none, false, some "m", some "u", none⟩
     ⟨none, none, none⟩ (fun _ => .ok "text") (fun _ _ => none)).1,
   by decide,
   (C9_exit_codes_amended ⟨none, false, some "m", some "u", none⟩
     ⟨none, none, none⟩ (fun _ => .ok "text")
     (fun _ _ => none)).2.2.2.2.2.1 "notes.txt" (by decide),
   rfl, rfl, rfl,
   ((C9_exit_codes_amended ⟨none, false, some "m", some "u", none⟩
     ⟨none, none, none⟩ (fun _ => .error "conversion failed")
     (fun _ _ => none)).2.2.2.2.2.2.2.2.1
     (.dir ["AKH_1.pdf"]) ["AKH_1.pdf"] rfl rfl rfl).trans rfl⟩
